import Mathlib

/-!
Shallow embedding of the client-side interaction state machine of the
audio-transcription single-page app (src/App.tsx): the component state
fields, the file-selection handlers, the transcription handler, the
streaming prompt handler, and the copy-to-clipboard helpers, together
with theorems checking the specification's claims about them.
-/

namespace AudioApp

/-- TranscriptionState: `type Status = 'idle' | 'uploading' | 'transcribing' | 'error'`. -/
inductive Status where
  | idle
  | uploading
  | transcribing
  | error
deriving DecidableEq, Repr

/-- PromptState: `type PromptStatus = 'idle' | 'loading' | 'error'`. -/
inductive PromptStatus where
  | idle
  | loading
  | error
deriving DecidableEq, Repr

/-- The component's useState fields, in source order.  A selected file is
modelled by its name (an opaque handle); error fields are `Option String`
mirroring `string | null`. -/
structure AppState where
  selectedFile : Option String
  transcription : String
  status : Status
  error : Option String
  copied : Bool
  prompt : String
  promptResponse : String
  promptStatus : PromptStatus
  promptError : Option String
  promptCopied : Bool
deriving DecidableEq, Repr

/-- The initial values passed to useState. -/
def initialState : AppState :=
  { selectedFile := none
  , transcription := ""
  , status := Status.idle
  , error := none
  , copied := false
  , prompt := ""
  , promptResponse := ""
  , promptStatus := PromptStatus.idle
  , promptError := none
  , promptCopied := false }

/-- `resetPromptState` from App.tsx: resets prompt, promptResponse,
promptError, promptStatus and promptCopied to their initial values. -/
def resetPromptState (s : AppState) : AppState :=
  { s with
      prompt := ""
    , promptResponse := ""
    , promptError := none
    , promptStatus := PromptStatus.idle
    , promptCopied := false }

/-- `handleFileChange` from App.tsx: `event.target.files?.[0]` is the
optional file argument; when present, clears error and transcription,
stores the file, sets status idle and resets the prompt state. -/
def handleFileChange (s : AppState) (file : Option String) : AppState :=
  match file with
  | some f =>
      resetPromptState
        { s with
            error := none
          , transcription := ""
          , selectedFile := some f
          , status := Status.idle }
  | none => s

/-- `handleFileDrop` from App.tsx: identical state effect to
`handleFileChange`, taking `event.dataTransfer.files?.[0]`. -/
def handleFileDrop (s : AppState) (file : Option String) : AppState :=
  match file with
  | some f =>
      resetPromptState
        { s with
            error := none
          , transcription := ""
          , selectedFile := some f
          , status := Status.idle }
  | none => s

/-- `removeFile` from App.tsx: clears the file, transcription, status,
copied flag and the prompt state. -/
def removeFile (s : AppState) : AppState :=
  resetPromptState
    { s with
        selectedFile := none
      , transcription := ""
      , status := Status.idle
      , copied := false }

/-- The object returned by `ai.files.upload`: a remote file reference
with a media type and a URI. -/
structure UploadedFile where
  mimeType : String
  uri : String
deriving DecidableEq, Repr

/-- Outcome of the awaited `ai.files.upload` call: it resolves to a file
object, resolves to a falsy value, or rejects with an error message. -/
inductive UploadResult where
  | ok (f : UploadedFile)
  | noFile
  | threw (msg : String)
deriving DecidableEq, Repr

/-- Outcome of the awaited non-streaming `ai.models.generateContent`
call: it resolves with `response.text` (the empty string standing for a
response that carries no text) or rejects with an error message. -/
inductive GenResult where
  | ok (text : String)
  | threw (msg : String)
deriving DecidableEq, Repr

/-- Remote-service behaviour for one `handleTranscribe` run. -/
structure TranscribeEnv where
  upload : UploadResult
  generate : GenResult
deriving DecidableEq, Repr

/-- The non-streaming generation request issued in phase 2 of
`handleTranscribe`: the model identifier, the text part, and the file
part built from the uploaded file reference. -/
structure GenRequest where
  model : String
  instructionText : String
  fileMimeType : String
  fileUri : String
deriving DecidableEq, Repr

/-- The fixed text part of the transcription request, verbatim from
App.tsx line 170. -/
def transcribeInstruction : String :=
  "Transcribe this long audio recording in its entirety. Provide a high-quality, accurate transcript of all speech."

/-- The instruction text as quoted by the specification (section 4.1,
property 2) — kept separate so it can be compared with
`transcribeInstruction`, the text the source actually sends. -/
def specClaimedInstruction : String :=
  "transcribe this audio recording in its entirety, accurately and completely"

/-- Message set when `handleTranscribe` is called with no file. -/
def missingFileMsg : String := "Please select an audio file first."

/-- Message set when no API key is configured for transcription. -/
def noKeyMsg : String :=
  "API key is not configured. Please set the API_KEY environment variable."

/-- The message of the error thrown when the upload resolves without a
file object. -/
def uploadNoFileMsg : String :=
  "File upload failed: The API did not return a file object."

/-- Message set when the generation response carries no text. -/
def emptyResponseMsg : String :=
  "Could not get a transcription. The response was empty."

/-- The catch block's formatted message: a fixed prefix, the underlying
error's message, and a fixed suffix. -/
def transcribeErrorMsg (cause : String) : String :=
  "An error occurred: " ++ cause ++ ". If you are uploading a large file, please ensure you have a stable internet connection."

/-- `handleTranscribe` from App.tsx.  `hasKey` models whether `ai` is
non-null (the API_KEY environment variable is set).  Returns the new
state together with the phase-2 generation request, when one was issued
(`none` means no transcription request was made). -/
def handleTranscribe (s : AppState) (hasKey : Bool) (env : TranscribeEnv) :
    AppState × Option GenRequest :=
  match s.selectedFile with
  | none => ({ s with error := some missingFileMsg }, none)
  | some _ =>
    if hasKey = false then
      ({ s with error := some noKeyMsg }, none)
    else
      let s1 := resetPromptState
        { s with
            status := Status.uploading
          , error := none
          , transcription := ""
          , copied := false }
      match env.upload with
      | UploadResult.threw msg =>
          ({ s1 with error := some (transcribeErrorMsg msg), status := Status.error }, none)
      | UploadResult.noFile =>
          ({ s1 with error := some (transcribeErrorMsg uploadNoFileMsg), status := Status.error }, none)
      | UploadResult.ok f =>
          let s2 := { s1 with status := Status.transcribing }
          let req : GenRequest :=
            { model := "gemini-2.5-pro"
            , instructionText := transcribeInstruction
            , fileMimeType := f.mimeType
            , fileUri := f.uri }
          match env.generate with
          | GenResult.threw msg =>
              ({ s2 with error := some (transcribeErrorMsg msg), status := Status.error }, some req)
          | GenResult.ok text =>
              if text = "" then
                ({ s2 with error := some emptyResponseMsg, status := Status.idle }, some req)
              else
                ({ s2 with transcription := text, status := Status.idle }, some req)

/-- Validation message set when the instruction is blank or no
transcript exists. -/
def promptValidationMsg : String := "Lütfen bir talimat veya başlık girin."

/-- Message set when no API key is configured for the prompt submit. -/
def promptNoKeyMsg : String := "API anahtarı yapılandırılmamış."

/-- The prompt catch block's formatted message. -/
def promptErrorMsg (cause : String) : String := "Bir hata oluştu: " ++ cause

/-- The JavaScript `String.prototype.trim` used in the validation check
`!prompt.trim()`: removes leading and trailing whitespace. -/
def jsTrim (s : String) : String :=
  String.mk (((s.data.dropWhile Char.isWhitespace).reverse.dropWhile
    Char.isWhitespace).reverse)

/-- Outcome of the awaited `ai.models.generateContentStream` call: the
stream either delivers all its chunks and completes, or delivers some
chunks and then an exception occurs (an empty delivered list covers an
exception before any chunk, including the stream call itself rejecting). -/
inductive StreamResult where
  | chunks (cs : List String)
  | errorAfter (cs : List String) (msg : String)
deriving DecidableEq, Repr

/-- The state writes performed by `handlePromptSubmit` after validation
succeeds, before the stream is consumed. -/
def submitStart (s : AppState) : AppState :=
  { s with
      promptStatus := PromptStatus.loading
    , promptError := none
    , promptResponse := ""
    , promptCopied := false }

/-- The `for await` loop of `handlePromptSubmit`: each chunk is appended
to promptResponse in delivery order. -/
def streamLoop (s : AppState) (cs : List String) : AppState :=
  List.foldl (fun st c => { st with promptResponse := st.promptResponse ++ c }) s cs

/-- Concatenation of a chunk list in delivery order. -/
def concatChunks : List String → String
  | [] => ""
  | c :: cs => c ++ concatChunks cs

/-- `handlePromptSubmit` from App.tsx.  Returns the new state together
with a flag recording whether the remote streaming call was issued. -/
def handlePromptSubmit (s : AppState) (hasKey : Bool) (stream : StreamResult) :
    AppState × Bool :=
  if jsTrim s.prompt = "" ∨ s.transcription = "" then
    ({ s with promptError := some promptValidationMsg }, false)
  else if hasKey = false then
    ({ s with promptError := some promptNoKeyMsg }, false)
  else
    match stream with
    | StreamResult.chunks cs =>
        ({ streamLoop (submitStart s) cs with promptStatus := PromptStatus.idle }, true)
    | StreamResult.errorAfter cs msg =>
        ({ streamLoop (submitStart s) cs with
             promptError := some (promptErrorMsg msg)
           , promptStatus := PromptStatus.error }, true)

/-- State of one copy-to-clipboard helper instance, together with the
runtime context it interacts with: the copied flag, the pending
`setTimeout` reset times (absolute, in milliseconds), and the log of
clipboard writes. -/
structure CopyState where
  copied : Bool
  pending : List Nat
  clipboard : List String
deriving DecidableEq, Repr

/-- Copy helper before any action: flag false, no timers, no writes. -/
def initCopyState : CopyState :=
  { copied := false, pending := [], clipboard := [] }

/-- `handleCopy` / `handlePromptCopy` from App.tsx, called at absolute
time `now` with the text currently displayed: on empty text it returns
immediately; otherwise it writes the clipboard, sets the flag, and
schedules a one-shot reset 2500 ms later.  The previously scheduled
timer, if any, is not cancelled. -/
def handleCopy (now : Nat) (text : String) (s : CopyState) : CopyState :=
  if text = "" then s
  else
    { copied := true
    , pending := s.pending ++ [now + 2500]
    , clipboard := s.clipboard ++ [text] }

/-- The runtime firing a scheduled timeout at its scheduled time `t`:
the callback `setCopied(false)` runs and the timer is consumed.  A fire
event at a time with no pending timer is a no-op. -/
def fireTimer (t : Nat) (s : CopyState) : CopyState :=
  if t ∈ s.pending then
    { s with copied := false, pending := s.pending.erase t }
  else s

/-- One event in a copy-helper run: a user copy action at a time, or a
scheduled timeout firing at its time. -/
inductive CopyEvent where
  | copyAt (t : Nat) (text : String)
  | fireAt (t : Nat)
deriving DecidableEq, Repr

/-- Stepping the copy helper by one event. -/
def copyStep (s : CopyState) : CopyEvent → CopyState
  | CopyEvent.copyAt t text => handleCopy t text s
  | CopyEvent.fireAt t => fireTimer t s

/-- Running the copy helper over a time-ordered event list. -/
def runCopy (s : CopyState) (es : List CopyEvent) : CopyState :=
  List.foldl copyStep s es

/-! Concrete inputs used by the witness theorems. -/

/-- A state with a file selected, as after choosing lecture.mp3. -/
def wFileState : AppState := { initialState with selectedFile := some "lecture.mp3" }

/-- A concrete uploaded-file reference. -/
def wUploaded : UploadedFile := { mimeType := "audio/mpeg", uri := "files/abc123" }

/-- Environment: upload succeeds, generation returns non-empty text. -/
def wEnvOk : TranscribeEnv :=
  { upload := UploadResult.ok wUploaded, generate := GenResult.ok "Hello world." }

/-- Environment: upload succeeds, generation response carries no text. -/
def wEnvEmpty : TranscribeEnv :=
  { upload := UploadResult.ok wUploaded, generate := GenResult.ok "" }

/-- Environment: the upload call rejects. -/
def wEnvUploadThrew : TranscribeEnv :=
  { upload := UploadResult.threw "network unreachable", generate := GenResult.ok "unused" }

/-- A state holding a transcript and a non-blank instruction. -/
def wPromptState : AppState :=
  { initialState with
      selectedFile := some "lecture.mp3"
    , transcription := "Hello world."
    , prompt := "Summarize in 3 bullets" }

/-! Helper lemmas. -/

/-- String append is associative. -/
theorem str_append_assoc (a b c : String) : a ++ b ++ c = a ++ (b ++ c) := by
  apply String.ext
  simp [String.data_append, List.append_assoc]

/-- The empty string is a right identity for append. -/
theorem str_append_empty (a : String) : a ++ "" = a := by
  apply String.ext
  simp [String.data_append]

/-- The empty string is a left identity for append. -/
theorem str_empty_append (a : String) : "" ++ a = a := by
  apply String.ext
  simp [String.data_append]

/-- The streaming loop appends the concatenation of the consumed chunks
to whatever promptResponse it started from. -/
theorem streamLoop_promptResponse (cs : List String) (s : AppState) :
    (streamLoop s cs).promptResponse = s.promptResponse ++ concatChunks cs := by
  induction cs generalizing s with
  | nil => simp [streamLoop, concatChunks, str_append_empty]
  | cons c cs ih =>
      show (streamLoop { s with promptResponse := s.promptResponse ++ c } cs).promptResponse = _
      rw [ih]
      simp [concatChunks, str_append_assoc]

/-- The streaming loop writes only promptResponse: promptStatus and
promptError are untouched by chunk consumption. -/
theorem streamLoop_frame (cs : List String) (s : AppState) :
    (streamLoop s cs).promptStatus = s.promptStatus
    ∧ (streamLoop s cs).promptError = s.promptError := by
  induction cs generalizing s with
  | nil => exact ⟨rfl, rfl⟩
  | cons c cs ih => exact ih _

/-! Claim theorems. -/

/-- C3: for every prior state, selecting a new file — via the file
chooser or via drag-and-drop — clears the transcription and the
transcription error, resets status to idle, and resets prompt,
promptResponse, promptStatus, promptError and promptCopied to their
initial values. -/
theorem selectFile_resets_state (s : AppState) (f : String) :
    handleFileChange s (some f) =
      { s with
          selectedFile := some f
        , transcription := ""
        , error := none
        , status := Status.idle
        , prompt := ""
        , promptResponse := ""
        , promptStatus := PromptStatus.idle
        , promptError := none
        , promptCopied := false }
    ∧ handleFileDrop s (some f) =
      { s with
          selectedFile := some f
        , transcription := ""
        , error := none
        , status := Status.idle
        , prompt := ""
        , promptResponse := ""
        , promptStatus := PromptStatus.idle
        , promptError := none
        , promptCopied := false } :=
  ⟨rfl, rfl⟩

/-- C1: when the upload succeeds and the generation request returns
non-empty text, handleTranscribe ends with status idle and stores
exactly the returned text as the transcription. -/
theorem transcribe_success (s : AppState) (env : TranscribeEnv)
    (f : String) (uf : UploadedFile) (text : String)
    (hf : s.selectedFile = some f)
    (hu : env.upload = UploadResult.ok uf)
    (hg : env.generate = GenResult.ok text)
    (ht : text ≠ "") :
    (handleTranscribe s true env).1.status = Status.idle
    ∧ (handleTranscribe s true env).1.transcription = text := by
  simp [handleTranscribe, hf, hu, hg, ht, resetPromptState]

/-- Witness for C1: transcribing lecture.mp3 in an environment whose
generation call returns "Hello world." ends idle with that transcript. -/
theorem transcribe_success_witness :
    (handleTranscribe wFileState true wEnvOk).1.status = Status.idle
    ∧ (handleTranscribe wFileState true wEnvOk).1.transcription = "Hello world." :=
  transcribe_success wFileState wEnvOk "lecture.mp3" wUploaded "Hello world."
    rfl rfl rfl (by decide)

/-- C4: when the upload succeeds but the generation response carries no
text, handleTranscribe sets the empty-response error message while
status nevertheless ends at idle, not error. -/
theorem transcribe_empty_response (s : AppState) (env : TranscribeEnv)
    (f : String) (uf : UploadedFile)
    (hf : s.selectedFile = some f)
    (hu : env.upload = UploadResult.ok uf)
    (hg : env.generate = GenResult.ok "") :
    (handleTranscribe s true env).1.error = some emptyResponseMsg
    ∧ (handleTranscribe s true env).1.status = Status.idle
    ∧ (handleTranscribe s true env).1.status ≠ Status.error := by
  simp [handleTranscribe, hf, hu, hg, resetPromptState]

/-- Witness for C4: an environment whose generation call returns empty
text leaves the error message set and the status idle. -/
theorem transcribe_empty_response_witness :
    (handleTranscribe wFileState true wEnvEmpty).1.error = some emptyResponseMsg
    ∧ (handleTranscribe wFileState true wEnvEmpty).1.status = Status.idle
    ∧ (handleTranscribe wFileState true wEnvEmpty).1.status ≠ Status.error :=
  transcribe_empty_response wFileState wEnvEmpty "lecture.mp3" wUploaded rfl rfl rfl

/-- C8: when the upload phase fails — the upload call throws, or
resolves without a file object — handleTranscribe ends with status
error, an error message containing the underlying cause, no phase-2
generation request issued, and an empty transcription. -/
theorem transcribe_upload_failure (s : AppState) (env : TranscribeEnv)
    (f : String)
    (hf : s.selectedFile = some f)
    (hu : env.upload = UploadResult.noFile ∨ ∃ m, env.upload = UploadResult.threw m) :
    (handleTranscribe s true env).1.status = Status.error
    ∧ (handleTranscribe s true env).1.transcription = ""
    ∧ (handleTranscribe s true env).2 = none
    ∧ ∃ cause,
        (handleTranscribe s true env).1.error = some (transcribeErrorMsg cause)
        ∧ (env.upload = UploadResult.threw cause
           ∨ (env.upload = UploadResult.noFile ∧ cause = uploadNoFileMsg)) := by
  rcases hu with hu | ⟨m, hu⟩ <;>
    simp [handleTranscribe, hf, hu, resetPromptState]

/-- Witness for C8: when the upload rejects with "network unreachable",
the run ends in the error status with the cause in the message, an empty
transcription, and no generation request. -/
theorem transcribe_upload_failure_witness :
    (handleTranscribe wFileState true wEnvUploadThrew).1.status = Status.error
    ∧ (handleTranscribe wFileState true wEnvUploadThrew).1.transcription = ""
    ∧ (handleTranscribe wFileState true wEnvUploadThrew).2 = none
    ∧ ∃ cause,
        (handleTranscribe wFileState true wEnvUploadThrew).1.error
          = some (transcribeErrorMsg cause)
        ∧ (wEnvUploadThrew.upload = UploadResult.threw cause
           ∨ (wEnvUploadThrew.upload = UploadResult.noFile ∧ cause = uploadNoFileMsg)) :=
  transcribe_upload_failure wFileState wEnvUploadThrew "lecture.mp3" rfl
    (Or.inr ⟨"network unreachable", rfl⟩)

/-- C5 counterexample: a concrete run reaching phase 2 issues a request
whose text part is `transcribeInstruction`, and that text differs from
the instruction string the claim quotes. -/
theorem transcribe_instruction_counterexample :
    (handleTranscribe wFileState true wEnvOk).2.map GenRequest.instructionText
      = some transcribeInstruction
    ∧ transcribeInstruction ≠ specClaimedInstruction :=
  ⟨rfl, by decide⟩

/-- C5 amended: every handleTranscribe run that reaches phase 2 issues a
single generation request whose text part is exactly the fixed
instruction "Transcribe this long audio recording in its entirety.
Provide a high-quality, accurate transcript of all speech." alongside
the remote file reference, addressed to model gemini-2.5-pro. -/
theorem transcribe_request_fixed_instruction (s : AppState) (hasKey : Bool)
    (env : TranscribeEnv) (req : GenRequest)
    (h : (handleTranscribe s hasKey env).2 = some req) :
    req.instructionText = transcribeInstruction
    ∧ req.model = "gemini-2.5-pro" := by
  unfold handleTranscribe at h
  cases hsf : s.selectedFile <;> rw [hsf] at h
  · simp at h
  · cases hasKey
    · rw [if_pos rfl] at h
      simp at h
    · rw [if_neg (by simp)] at h
      cases hup : env.upload <;> rw [hup] at h
      · cases hg : env.generate <;> rw [hg] at h
        · rename_i text
          by_cases ht : text = "" <;> simp [ht] at h <;>
            subst h <;> exact ⟨rfl, rfl⟩
        · simp at h
          subst h
          exact ⟨rfl, rfl⟩
      · simp at h
      · simp at h

/-- Witness for C5 amended: the request issued in the concrete
successful run carries the fixed instruction text and model name. -/
theorem transcribe_request_fixed_instruction_witness :
    ({ model := "gemini-2.5-pro"
     , instructionText := transcribeInstruction
     , fileMimeType := "audio/mpeg"
     , fileUri := "files/abc123" } : GenRequest).instructionText = transcribeInstruction
    ∧ ({ model := "gemini-2.5-pro"
       , instructionText := transcribeInstruction
       , fileMimeType := "audio/mpeg"
       , fileUri := "files/abc123" } : GenRequest).model = "gemini-2.5-pro" :=
  transcribe_request_fixed_instruction wFileState true wEnvOk _ rfl

/-- C10: file selection leaves the transcript copied flag unchanged,
while removeFile and a handleTranscribe run with a file selected reset
it to false. -/
theorem selectFile_preserves_copied (s : AppState) (f g : String)
    (env : TranscribeEnv) (hf : s.selectedFile = some g) :
    (handleFileChange s (some f)).copied = s.copied
    ∧ (handleFileDrop s (some f)).copied = s.copied
    ∧ (removeFile s).copied = false
    ∧ (handleTranscribe s true env).1.copied = false := by
  refine ⟨rfl, rfl, rfl, ?_⟩
  unfold handleTranscribe
  rw [hf]
  cases hup : env.upload
  · cases hg : env.generate
    · rename_i text
      by_cases ht : text = "" <;> simp [ht, resetPromptState]
    · simp [resetPromptState]
  · simp [resetPromptState]
  · simp [resetPromptState]

/-- Witness for C10: from a state with the copied flag true and a file
selected, selecting a new file keeps the flag true, while removal and
transcription clear it. -/
theorem selectFile_preserves_copied_witness :
    (handleFileChange { wFileState with copied := true } (some "other.wav")).copied
      = ({ wFileState with copied := true } : AppState).copied
    ∧ (handleFileDrop { wFileState with copied := true } (some "other.wav")).copied
      = ({ wFileState with copied := true } : AppState).copied
    ∧ (removeFile { wFileState with copied := true }).copied = false
    ∧ (handleTranscribe { wFileState with copied := true } true wEnvOk).1.copied = false :=
  selectFile_preserves_copied { wFileState with copied := true }
    "other.wav" "lecture.mp3" wEnvOk rfl

/-- C2: during a streaming submit that passes validation, the state of
the chunk loop after the first n chunks holds exactly the concatenation
of those n chunks in delivery order; the completed submit stores the
concatenation of all chunks; it ends with promptStatus idle; and a
stream yielding zero chunks ends with an empty promptResponse. -/
theorem prompt_stream_accumulates (s : AppState) (cs : List String) (n : Nat)
    (hp : jsTrim s.prompt ≠ "") (ht : s.transcription ≠ "") :
    (streamLoop (submitStart s) (List.take n cs)).promptResponse
      = concatChunks (List.take n cs)
    ∧ (handlePromptSubmit s true (StreamResult.chunks cs)).1.promptResponse
      = concatChunks cs
    ∧ (handlePromptSubmit s true (StreamResult.chunks cs)).1.promptStatus
      = PromptStatus.idle
    ∧ (handlePromptSubmit s true (StreamResult.chunks [])).1.promptResponse = "" := by
  have hcond : ¬(jsTrim s.prompt = "" ∨ s.transcription = "") := by
    intro hor
    rcases hor with h | h
    · exact hp h
    · exact ht h
  have hloop : ∀ ds : List String,
      (streamLoop (submitStart s) ds).promptResponse = concatChunks ds := by
    intro ds
    rw [streamLoop_promptResponse]
    exact str_empty_append _
  refine ⟨hloop _, ?_, ?_, ?_⟩ <;>
    simp only [handlePromptSubmit, hcond, if_false, ite_false]
  · exact hloop cs
  · rfl
  · exact hloop []

/-- Witness for C2: from a state with a transcript and a non-blank
instruction, streaming three chunks accumulates their concatenation,
with the first two chunks' prefix visible mid-stream, ending idle. -/
theorem prompt_stream_accumulates_witness :
    (streamLoop (submitStart wPromptState)
        (List.take 2 ["### Summary\n", "- point one\n", "- point two\n"])).promptResponse
      = concatChunks (List.take 2 ["### Summary\n", "- point one\n", "- point two\n"])
    ∧ (handlePromptSubmit wPromptState true
        (StreamResult.chunks ["### Summary\n", "- point one\n", "- point two\n"])).1.promptResponse
      = concatChunks ["### Summary\n", "- point one\n", "- point two\n"]
    ∧ (handlePromptSubmit wPromptState true
        (StreamResult.chunks ["### Summary\n", "- point one\n", "- point two\n"])).1.promptStatus
      = PromptStatus.idle
    ∧ (handlePromptSubmit wPromptState true (StreamResult.chunks [])).1.promptResponse = "" :=
  prompt_stream_accumulates wPromptState
    ["### Summary\n", "- point one\n", "- point two\n"] 2 (by decide) (by decide)

/-- C7: when the instruction is empty or whitespace-only after trimming,
or no transcript exists, handlePromptSubmit issues no remote call, sets
the localized validation message, and changes nothing else — in
particular promptStatus is unchanged and never enters loading. -/
theorem prompt_validation_shortcircuit (s : AppState) (hasKey : Bool)
    (stream : StreamResult)
    (h : jsTrim s.prompt = "" ∨ s.transcription = "") :
    handlePromptSubmit s hasKey stream
      = ({ s with promptError := some promptValidationMsg }, false)
    ∧ (handlePromptSubmit s hasKey stream).1.promptStatus = s.promptStatus := by
  have heq : handlePromptSubmit s hasKey stream
      = ({ s with promptError := some promptValidationMsg }, false) := by
    simp [handlePromptSubmit, h]
  exact ⟨heq, by rw [heq]⟩

/-- Witness for C7: submitting with a whitespace-only instruction over
an existing transcript short-circuits with the validation message and
an unchanged promptStatus, issuing no call. -/
theorem prompt_validation_shortcircuit_witness :
    handlePromptSubmit { wPromptState with prompt := "   " } true
        (StreamResult.chunks ["x"])
      = ({ { wPromptState with prompt := "   " } with
             promptError := some promptValidationMsg }, false)
    ∧ (handlePromptSubmit { wPromptState with prompt := "   " } true
        (StreamResult.chunks ["x"])).1.promptStatus
      = ({ wPromptState with prompt := "   " } : AppState).promptStatus :=
  prompt_validation_shortcircuit { wPromptState with prompt := "   " } true
    (StreamResult.chunks ["x"]) (Or.inl (by decide))

/-- C9: when an exception occurs after streaming has begun,
handlePromptSubmit ends with promptStatus error, the formatted message,
and the partial promptResponse accumulated so far retained, not rolled
back. -/
theorem prompt_error_retains_partial (s : AppState) (cs : List String) (msg : String)
    (hp : jsTrim s.prompt ≠ "") (ht : s.transcription ≠ "") :
    (handlePromptSubmit s true (StreamResult.errorAfter cs msg)).1.promptStatus
      = PromptStatus.error
    ∧ (handlePromptSubmit s true (StreamResult.errorAfter cs msg)).1.promptError
      = some (promptErrorMsg msg)
    ∧ (handlePromptSubmit s true (StreamResult.errorAfter cs msg)).1.promptResponse
      = concatChunks cs := by
  have hcond : ¬(jsTrim s.prompt = "" ∨ s.transcription = "") := by
    intro hor
    rcases hor with h | h
    · exact hp h
    · exact ht h
  refine ⟨?_, ?_, ?_⟩ <;>
    simp only [handlePromptSubmit, hcond, if_false, ite_false]
  · rfl
  · rfl
  · show (streamLoop (submitStart s) cs).promptResponse = concatChunks cs
    rw [streamLoop_promptResponse]
    exact str_empty_append _

/-- Witness for C9: a stream that delivers one chunk and then fails
leaves that chunk in promptResponse with the error status and message. -/
theorem prompt_error_retains_partial_witness :
    (handlePromptSubmit wPromptState true
        (StreamResult.errorAfter ["### Summary\n"] "stream reset")).1.promptStatus
      = PromptStatus.error
    ∧ (handlePromptSubmit wPromptState true
        (StreamResult.errorAfter ["### Summary\n"] "stream reset")).1.promptError
      = some (promptErrorMsg "stream reset")
    ∧ (handlePromptSubmit wPromptState true
        (StreamResult.errorAfter ["### Summary\n"] "stream reset")).1.promptResponse
      = concatChunks ["### Summary\n"] :=
  prompt_error_retains_partial wPromptState ["### Summary\n"] "stream reset"
    (by decide) (by decide)

/-- C6 counterexample: copy at time 0, copy again at time 1000; the flag
is true after the second copy, but the first call's uncancelled timer
fires at its own time 2500 and resets the flag to false — earlier than
2.5 seconds after the latest copy (3500).  So a superseded prior call's
timer does cause an earlier reset. -/
theorem copy_timer_counterexample :
    (runCopy initCopyState
        [CopyEvent.copyAt 0 "a", CopyEvent.copyAt 1000 "b"]).copied = true
    ∧ (runCopy initCopyState
        [CopyEvent.copyAt 0 "a", CopyEvent.copyAt 1000 "b"]).pending = [2500, 3500]
    ∧ (runCopy initCopyState
        [CopyEvent.copyAt 0 "a", CopyEvent.copyAt 1000 "b",
          CopyEvent.fireAt 2500]).copied = false
    ∧ (2500 : Nat) < 1000 + 2500 := by
  refine ⟨rfl, by decide, by decide, by decide⟩

/-- C6 amended: on empty text the copy action is a no-op (clipboard
unwritten, flag unchanged); on non-empty text it writes the clipboard,
sets the flag true, and schedules a one-shot reset exactly 2.5 seconds
later without cancelling any pending timer; every pending timer resets
the flag to false when it fires, so a timer scheduled by an earlier,
superseded copy call may reset the flag before the latest copy's
2.5-second window ends. -/
theorem copy_flag_behaviour (s : CopyState) (now t : Nat) (text : String)
    (hne : text ≠ "") (hp : t ∈ s.pending) :
    handleCopy now "" s = s
    ∧ (handleCopy now text s).copied = true
    ∧ (handleCopy now text s).pending = s.pending ++ [now + 2500]
    ∧ (handleCopy now text s).clipboard = s.clipboard ++ [text]
    ∧ (fireTimer t s).copied = false := by
  refine ⟨rfl, ?_, ?_, ?_, ?_⟩ <;> simp [handleCopy, fireTimer, hne, hp]

/-- Witness for C6 amended: a copy of "a" at time 0 from the initial
state behaves as stated, and the scheduled timer resets the flag. -/
theorem copy_flag_behaviour_witness :
    handleCopy 0 "" (handleCopy 0 "a" initCopyState)
      = handleCopy 0 "a" initCopyState
    ∧ (handleCopy 0 "a" (handleCopy 0 "a" initCopyState)).copied = true
    ∧ (handleCopy 0 "a" (handleCopy 0 "a" initCopyState)).pending
      = (handleCopy 0 "a" initCopyState).pending ++ [0 + 2500]
    ∧ (handleCopy 0 "a" (handleCopy 0 "a" initCopyState)).clipboard
      = (handleCopy 0 "a" initCopyState).clipboard ++ ["a"]
    ∧ (fireTimer 2500 (handleCopy 0 "a" initCopyState)).copied = false :=
  copy_flag_behaviour (handleCopy 0 "a" initCopyState) 0 2500 "a"
    (by decide) (by decide)

end AudioApp
